import Mathlib

/-!
Verification development for the HourlySignal content pipeline.

The definitions below are a shallow embedding of the TypeScript source:
pure functions are translated directly; stateful classes become explicit
state passing; network / AI calls become oracle parameters (functions
supplied by the environment); `try`/`catch` around an oracle becomes an
`Option`/`Except` result.  JavaScript strings are modelled as Lean
`String` (sequences of code points); JS `\s` is modelled by the ASCII
whitespace characters; float comparisons such as `m / n > 0.5` are
modelled exactly as `2 * m > n`.
-/

namespace HourlySignal

/-! ## JS-style string primitives -/

/-- The characters matched by the JS regex class `\s` (ASCII portion). -/
def isJsSpace (c : Char) : Bool :=
  c = ' ' || c = '\t' || c = '\n' || c = '\r' || c = Char.ofNat 11 || c = Char.ofNat 12

/-- ASCII lower-casing, as applied by `String.prototype.toLowerCase` to the
characters relevant here (non-ASCII characters are left unchanged; any that
differ are stripped by the surrounding regexes anyway). -/
def jsToLower (c : Char) : Char :=
  if 'A' ≤ c ∧ c ≤ 'Z' then Char.ofNat (c.toNat + 32) else c

def toLowerStr (s : String) : String :=
  String.mk (s.data.map jsToLower)

/-- One step of JS `replace(/\s+/g, ' ')`: every maximal whitespace run
becomes a single space.  `prevSp` records whether the previous character
was part of a whitespace run. -/
def collapseWsAux : Bool → List Char → List Char
  | _, [] => []
  | prevSp, c :: rest =>
    if isJsSpace c then
      if prevSp then collapseWsAux true rest
      else ' ' :: collapseWsAux true rest
    else c :: collapseWsAux false rest

def collapseWs (l : List Char) : List Char := collapseWsAux false l

/-- JS `String.prototype.trim` (ASCII whitespace portion). -/
def jsTrimList (l : List Char) : List Char :=
  ((l.dropWhile isJsSpace).reverse.dropWhile isJsSpace).reverse

def jsTrimStr (s : String) : String := String.mk (jsTrimList s.data)

/-- Substring test: does `needle` occur contiguously inside `hay`? -/
def listInfix (needle : List Char) : List Char → Bool
  | [] => needle.isEmpty
  | c :: rest => needle.isPrefixOf (c :: rest) || listInfix needle rest

/-- JS `String.prototype.includes`. -/
def jsIncludes (s pat : String) : Bool := listInfix pat.data s.data

/-- Split a string at whitespace runs, keeping only the nonempty chunks.
This matches JS `split(/\s+/)` up to a possible leading empty chunk, which
every caller in the source removes with a minimum-length filter. -/
def wordsAux (cur : List Char) : List Char → List (List Char)
  | [] => if cur.isEmpty then [] else [cur.reverse]
  | c :: rest =>
    if isJsSpace c then
      if cur.isEmpty then wordsAux [] rest
      else cur.reverse :: wordsAux [] rest
    else wordsAux (c :: cur) rest

def splitWords (s : String) : List String :=
  (wordsAux [] s.data).map String.mk

def joinSpace (l : List String) : String := String.intercalate " " l

/-! ## FetcherAgent (src/src/agents/fetcher.agent.ts) -/

structure NewsArticle where
  title : String
  description : String
  source : String
  url : String
  publishedAt : Int
  category : String
deriving Repr, DecidableEq

/-- `FetcherAgent.normalizeTitle`: lowercase, strip everything but
`[a-z0-9\s]`, collapse whitespace runs to one space, trim, keep the first
50 characters. -/
def normalizeTitle (title : String) : String :=
  let lowered := title.data.map jsToLower
  let stripped := lowered.filter
    (fun c => ('a' ≤ c && c ≤ 'z') || ('0' ≤ c && c ≤ '9') || isJsSpace c)
  String.mk ((jsTrimList (collapseWs stripped)).take 50)

/-- The loop body of `FetcherAgent.mergeAndDeduplicate`: `seen` is the set
of normalized keys already emitted. An article is kept iff its key is new,
its raw title is truthy (nonempty) and strictly longer than 10 characters;
only kept articles add their key to `seen`. -/
def mergeAux (seen : List String) : List NewsArticle → List NewsArticle
  | [] => []
  | a :: rest =>
    let key := normalizeTitle a.title
    if ¬ seen.contains key ∧ a.title ≠ "" ∧ a.title.length > 10 then
      a :: mergeAux (key :: seen) rest
    else
      mergeAux seen rest

def mergeAndDeduplicate (articles : List NewsArticle) : List NewsArticle :=
  mergeAux [] articles

/-- The discard rule exactly as claim C8 words it: an article is discarded
when its raw title is empty or under 10 characters. (Spec-side definition,
for comparison with the code's `title.length > 10` filter.) -/
def claimC8Discards (a : NewsArticle) : Prop :=
  a.title = "" ∨ a.title.length < 10

/-! ## BeastModeAI provider failover (beast-mode.service.ts)

The class fields that make up the secondary provider's circuit breaker
become an explicit state record; `Date.now()` becomes a `now` argument;
the two provider calls become oracle arguments (`Option`/`Except` values
standing for "returned text" vs "threw"). -/

structure BeastState where
  hasMistral : Bool
  hasGemini : Bool
  geminiDisabled : Bool
  geminiDisabledUntil : Int
  geminiFailCount : Nat
deriving Repr, DecidableEq

/-- `BeastModeAI.isGeminiAvailable` — returns the availability flag and the
(possibly auto-re-enabled) state. -/
def isGeminiAvailable (st : BeastState) (now : Int) : Bool × BeastState :=
  if ¬ st.hasGemini then (false, st)
  else if st.geminiDisabled then
    if now > st.geminiDisabledUntil then
      (true, { st with geminiDisabled := false, geminiFailCount := 0 })
    else (false, st)
  else (true, st)

/-- The rate-limit test in `handleGeminiFailure`:
`error.message?.includes('429') || error.message?.includes('Too Many')`. -/
def isRateLimitMsg (msg : String) : Bool :=
  jsIncludes msg "429" || jsIncludes msg "Too Many"

/-- `BeastModeAI.handleGeminiFailure`. -/
def handleGeminiFailure (st : BeastState) (now : Int) (errMsg : String) : BeastState :=
  let st := { st with geminiFailCount := st.geminiFailCount + 1 }
  if isRateLimitMsg errMsg then
    { st with geminiDisabled := true, geminiDisabledUntil := now + 5 * 60 * 1000 }
  else if st.geminiFailCount ≥ 3 then
    { st with geminiDisabled := true, geminiDisabledUntil := now + 2 * 60 * 1000 }
  else st

/-- `BeastModeAI.getSafeDefault`. -/
def getSafeDefault (prompt : String) : String :=
  if jsIncludes prompt "summary" || jsIncludes prompt "NEWS" then
    "Breaking news update - check back soon! 📰"
  else if jsIncludes prompt "headline" then
    "🔥 News Digest | Today"
  else if jsIncludes prompt "virality" || jsIncludes prompt "score" then
    "\x7b\"score\": 7, \"suggestions\": []\x7d"
  else if jsIncludes prompt "Rewrite" then
    "News: Latest headlines and updates! 📰"
  else
    "Update coming soon..."

structure GenOut where
  text : String
  state : BeastState
  /-- Whether this call actually issued a request to the secondary
  (Gemini) provider. -/
  usedGemini : Bool
deriving Repr, DecidableEq

/-- The part of `BeastModeAI.generate` after the primary provider has
failed (or is absent): consult the circuit breaker, try the secondary if
available, otherwise (or on its failure) return the safe default. -/
def generateFallback (st : BeastState) (now : Int) (prompt : String)
    (geminiResult : Except String String) : GenOut :=
  let availSt := isGeminiAvailable st now
  if availSt.1 && availSt.2.hasGemini then
    match geminiResult with
    | .ok t => ⟨t, availSt.2, true⟩
    | .error msg => ⟨getSafeDefault prompt, handleGeminiFailure availSt.2 now msg, true⟩
  else
    ⟨getSafeDefault prompt, availSt.2, false⟩

/-- `BeastModeAI.generate`.  `mistralResult` is the primary provider's
outcome (`some t` = returned `t`, `none` = threw); it is consulted only
when a Mistral client exists.  `geminiResult` likewise stands for the
secondary call's outcome, consulted only when the circuit is closed. -/
def generate (st : BeastState) (now : Int) (prompt : String)
    (mistralResult : Option String) (geminiResult : Except String String) : GenOut :=
  match st.hasMistral, mistralResult with
  | true, some t => ⟨t, st, false⟩
  | _, _ => generateFallback st now prompt geminiResult

/-! ## BeastModeAI.evaluate (JSON scoring) -/

/-- One field pair of the object produced by `JSON.parse` on an evaluation
response: the `score` entry (a number, when present) and the `feedback`
entry (a string, when present). -/
structure EvalJson where
  score : Option Int
  feedback : Option String
deriving Repr, DecidableEq

structure EvalOut where
  passed : Bool
  score : Int
  feedback : String
deriving Repr, DecidableEq

/-- The JS regex match `response.match(/\{[\s\S]*\}/)`: the (greedy) match
runs from the first `{` to the last `}`, provided that `}` comes after the
`{`. -/
def jsMatchBraces (s : String) : Option String :=
  match s.data.findIdx? (· = '\x7b'), (s.data.reverse.findIdx? (· = '\x7d')) with
  | some i, some rj =>
    let j := s.data.length - 1 - rj
    if i < j then some (String.mk ((s.data.drop i).take (j - i + 1))) else none
  | _, _ => none

/-- JS `result.score || 7`: a missing score — and also a score of `0`,
which is falsy — becomes 7. -/
def jsOrScore (o : Option Int) : Int :=
  match o with
  | some v => if v = 0 then 7 else v
  | none => 7

/-- `BeastModeAI.evaluate`, as a function of the text returned by
`generate` for the evaluation prompt.  `parse` stands for `JSON.parse`
restricted to the two fields the code reads (`none` = `JSON.parse` threw,
which the `catch` turns into the optimistic default). -/
def evaluate (parse : String → Option EvalJson) (response : String) : EvalOut :=
  match jsMatchBraces response with
  | some m =>
    match parse m with
    | some j =>
      { passed := decide (jsOrScore j.score ≥ 7)
        score := jsOrScore j.score
        feedback := j.feedback.getD "" }
    | none => { passed := true, score := 7, feedback := "" }
  | none => { passed := true, score := 7, feedback := "" }

/-! ## OriginalityAgent (originality.agent.ts) -/

/-- The fixed ignore-list of `isTooSimilar`. -/
def ignoreTerms : List String :=
  ["ballon", "d\x27or", "india", "world", "cup", "premier", "league",
   "cricket", "football", "award", "bravery", "olympics", "test",
   "match", "final", "champions", "trophy", "medal"]

/-- `filter(w => w.length > 3 && !ignoreTerms.includes(w))`. -/
def significantWords (ws : List String) : List String :=
  ws.filter (fun w => w.length > 3 && ¬ ignoreTerms.contains w)

/-- The 5-consecutive-word phrases of a word list
(`for i in 0 .. length-5`, `words.slice(i, i+5).join(' ')`). -/
def phraseWindows (ws : List String) : List String :=
  (List.range (ws.length - 4)).map (fun i => joinSpace ((ws.drop i).take 5))

/-- The phrase test of `isTooSimilar` against one original title. -/
def phraseHit (text original : String) : Bool :=
  let textLower := toLowerStr text
  let originalWords := (splitWords (toLowerStr original)).filter (fun w => w.length > 2)
  (phraseWindows originalWords).any (fun ph => jsIncludes textLower ph)

/-- The word-overlap test of `isTooSimilar` against one original title.
Note the direction: the ratio counts how many of the TITLE's significant
words occur among the candidate's significant words, divided by the number
of the title's significant words (`matchCount / origFiltered.length > 0.5`,
gated by `origFiltered.length > 5`). -/
def overlapHit (text original : String) : Bool :=
  let textWords := significantWords (splitWords (toLowerStr text))
  let originalWords := (splitWords (toLowerStr original)).filter (fun w => w.length > 2)
  let origFiltered := significantWords originalWords
  let matchCount := origFiltered.countP (fun w => textWords.contains w)
  origFiltered.length > 5 && 2 * matchCount > origFiltered.length

/-- `OriginalityAgent.isTooSimilar`. -/
def isTooSimilar (text : String) (originals : List String) : Bool :=
  originals.any (fun original => phraseHit text original || overlapHit text original)

/-- The overlap test in the direction claim C7 words it: more than 50% of
the CANDIDATE's significant words also appear in the title, gated on the
title having more than 5 significant words.  (Spec-side definition, for
comparison with `overlapHit`.) -/
def claimC7Similar (text : String) (originals : List String) : Bool :=
  originals.any (fun original =>
    let textSig := significantWords (splitWords (toLowerStr text))
    let originalWords := (splitWords (toLowerStr original)).filter (fun w => w.length > 2)
    let origSig := significantWords originalWords
    let matchCount := textSig.countP (fun w => originalWords.contains w)
    phraseHit text original || (origSig.length > 5 && 2 * matchCount > textSig.length))

/-- JS `replace(/^["']|["']$/g, '')`: drop one leading and one trailing
quote character. -/
def stripEdgeQuotes (s : String) : String :=
  let l := match s.data with
    | c :: rest => if c = '"' ∨ c = '\x27' then rest else c :: rest
    | [] => []
  let l := match l.reverse with
    | c :: rest => if c = '"' ∨ c = '\x27' then rest.reverse else l
    | [] => l
  String.mk l

/-- Case-insensitive literal match of `pat` at the head of `l`; returns the
remainder on success. -/
def ciMatchHead : List Char → List Char → Option (List Char)
  | [], rest => some rest
  | _ :: _, [] => none
  | p :: ps, c :: cs => if jsToLower c = jsToLower p then ciMatchHead ps cs else none

/-- JS `replace(/^(Your|Rewrite|Original)[^:]*:/i, '')`. -/
def stripLabelHead (s : String) : String :=
  let l := s.data
  let afterKw :=
    match ciMatchHead "your".data l with
    | some r => some r
    | none =>
      match ciMatchHead "rewrite".data l with
      | some r => some r
      | none => ciMatchHead "original".data l
  match afterKw with
  | some rest =>
    match rest.findIdx? (· = ':') with
    | some k => String.mk (rest.drop (k + 1))
    | none => s
  | none => s

/-- The cleaning applied by `ensureOriginal` to each rewrite:
`.replace(/^["']|["']$/g,'').replace(/^(Your|Rewrite|Original)[^:]*:/i,'').trim()`. -/
def cleanRewrite (s : String) : String :=
  jsTrimStr (stripLabelHead (stripEdgeQuotes s))

def isWordChar (c : Char) : Bool :=
  ('a' ≤ c && c ≤ 'z') || ('A' ≤ c && c ≤ 'Z') || ('0' ≤ c && c ≤ '9') || c = '_'

def isUpperAZ (c : Char) : Bool := 'A' ≤ c && c ≤ 'Z'
def isLowerAZ (c : Char) : Bool := 'a' ≤ c && c ≤ 'z'
def isDigit09 (c : Char) : Bool := '0' ≤ c && c ≤ '9'

/-- Attempt the alternative `\b[A-Z][a-z]+\b` at the current position;
`prev` is the character just before (for the leading word boundary). -/
def capWordAt (prev : Option Char) : List Char → Option (List Char)
  | [] => none
  | c :: rest =>
    let boundaryOk : Bool := match prev with | some p => !isWordChar p | none => true
    if boundaryOk && isUpperAZ c then
      let low := rest.takeWhile isLowerAZ
      let tailOk : Bool := match (rest.dropWhile isLowerAZ).head? with
        | some c2 => !isWordChar c2
        | none => true
      if !low.isEmpty && tailOk then some (c :: low)
      else none
    else none

/-- Left-to-right scan for the first match of `/\b[A-Z][a-z]+\b|\d+/`. -/
def firstKeywordAux (prev : Option Char) : List Char → Option String
  | [] => none
  | c :: rest =>
    match capWordAt prev (c :: rest) with
    | some m => some (String.mk m)
    | none =>
      if isDigit09 c then some (String.mk ((c :: rest).takeWhile isDigit09))
      else firstKeywordAux (some c) rest

/-- First match of `title.match(/\b[A-Z][a-z]+\b|\d+/g)` (the code only
uses `keywords[0]`). -/
def firstKeyword (s : String) : Option String := firstKeywordAux none s.data

/-- `OriginalityAgent.generateSafeFallback`; `rnd` stands for
`Math.floor(Math.random() * templates.length)`. -/
def generateSafeFallback (titles : List String) (rnd : Fin 3) : String :=
  let mainWord :=
    (match titles.head? with
     | some t => firstKeyword t
     | none => none).getD "Update"
  let template :=
    if rnd.val = 0 then "📰 Breaking: " ++ mainWord ++ " making headlines today!"
    else if rnd.val = 1 then "⚡ News Update: Big " ++ mainWord ++ " developments"
    else "🔥 Just in: " ++ mainWord ++ " story trending now"
  String.mk (template.data.take 80)

structure OriginalityResult where
  finalSummary : String
  isOriginal : Bool
  attempts : Nat
deriving Repr, DecidableEq

/-- The attempt loop of `OriginalityAgent.ensureOriginal`.  `rw attempt`
is the outcome of `ai.rewriteOriginal` on that attempt (`none` = threw,
handled by the `catch`); `n` is the number of attempts left. -/
def ensureOriginalAux (rw : Nat → Option String) (titles : List String)
    (rnd : Fin 3) (maxAttempts : Nat) : String → Nat → OriginalityResult
  | _summary, 0 => ⟨generateSafeFallback titles rnd, true, maxAttempts⟩
  | summary, n + 1 =>
    let attempt := maxAttempts - n
    match rw attempt with
    | none => ensureOriginalAux rw titles rnd maxAttempts summary n
    | some rwText =>
      let cleaned := cleanRewrite rwText
      if isTooSimilar cleaned titles then
        ensureOriginalAux rw titles rnd maxAttempts cleaned n
      else
        ⟨cleaned, true, attempt⟩

/-- `OriginalityAgent.ensureOriginal` (`maxChars` only feeds the rewrite
prompt, so it does not influence the control flow). -/
def ensureOriginal (rw : Nat → Option String) (rnd : Fin 3) (summary : String)
    (originalTitles : List String) (maxAttempts : Nat) (maxChars : Nat) : OriginalityResult :=
  let _ := maxChars
  ensureOriginalAux rw originalTitles rnd maxAttempts summary maxAttempts

/-! ## Key-rotating news clients (gnews.service.ts, newsdata.service.ts)

Each HTTP attempt's outcome is supplied by a behaviour oracle: for GNews it
is a function of the credential and the retry index within the inner
retry loop. -/

inductive KeyOutcome where
  | success (data : Nat)
  | qpsLimit
  | dailyLimit (msg : String)
  | otherError (msg : String)
deriving Repr, DecidableEq

structure GNewsState where
  currentKeyIndex : Nat
  exhaustedKeys : List String
deriving Repr, DecidableEq

inductive GNewsTry where
  | success (data : Nat)
  | exhausted
  | thrown (msg : String)
  | giveUp
deriving Repr, DecidableEq

/-- The inner `for (retry = 0; retry < 3; retry++)` loop of
`GNewsService.request` for one credential: a QPS limit retries the same
credential (after a delay, not modelled), a daily limit marks it
exhausted and breaks, any other error propagates, and falling out of the
loop (`giveUp`) just rotates.  `fuelr` counts the retries left. -/
def gnewsTryKeyAux (b : String → Nat → KeyOutcome) (key : String) :
    Nat → Nat → GNewsTry
  | _retry, 0 => .giveUp
  | retry, fuelr + 1 =>
    match b key retry with
    | .success d => .success d
    | .qpsLimit => gnewsTryKeyAux b key (retry + 1) fuelr
    | .dailyLimit _ => .exhausted
    | .otherError m => .thrown m

def gnewsTryKey (b : String → Nat → KeyOutcome) (key : String) : GNewsTry :=
  gnewsTryKeyAux b key 0 3

inductive GNewsReqResult where
  | ok (data : Nat)
  | allExhausted
  | thrown (msg : String)
deriving Repr, DecidableEq

structure GNewsLoopOut where
  result : GNewsReqResult
  state : GNewsState
  /-- Credentials on which at least one HTTP attempt was issued. -/
  called : List String
  /-- Key indices handled per outer iteration, tried or skipped. -/
  visited : List Nat
deriving Repr, DecidableEq

/-- The outer `while (attempts < this.apiKeys.length)` loop of
`GNewsService.request`; `fuel` is `apiKeys.length - attempts`. -/
def gnewsRequestAux (b : String → Nat → KeyOutcome) (keys : List String) :
    GNewsState → Nat → GNewsLoopOut
  | st, 0 => ⟨.allExhausted, st, [], []⟩
  | st, fuel + 1 =>
    let key := keys.getD st.currentKeyIndex ""
    if st.exhaustedKeys.contains key then
      let out := gnewsRequestAux b keys
        ⟨(st.currentKeyIndex + 1) % keys.length, st.exhaustedKeys⟩ fuel
      ⟨out.result, out.state, out.called, st.currentKeyIndex :: out.visited⟩
    else
      match gnewsTryKey b key with
      | .success d => ⟨.ok d, st, [key], [st.currentKeyIndex]⟩
      | .thrown m => ⟨.thrown m, st, [key], [st.currentKeyIndex]⟩
      | .exhausted =>
        let out := gnewsRequestAux b keys
          ⟨(st.currentKeyIndex + 1) % keys.length, key :: st.exhaustedKeys⟩ fuel
        ⟨out.result, out.state, key :: out.called, st.currentKeyIndex :: out.visited⟩
      | .giveUp =>
        let out := gnewsRequestAux b keys
          ⟨(st.currentKeyIndex + 1) % keys.length, st.exhaustedKeys⟩ fuel
        ⟨out.result, out.state, key :: out.called, st.currentKeyIndex :: out.visited⟩

/-- `GNewsService.request`. -/
def gnewsRequest (b : String → Nat → KeyOutcome) (keys : List String)
    (st : GNewsState) : GNewsLoopOut :=
  gnewsRequestAux b keys st keys.length

/-- The exhausted set built by marking `g i`, then `g (i+1)`, …, then
`g (i+n-1)` onto `E` (most recent first), matching successive
`exhaustedKeys.add` calls along a rotation run. -/
def markIdx (g : Nat → String) (E : List String) (i : Nat) : Nat → List String
  | 0 => E
  | n + 1 => g (i + n) :: markIdx g E i n

/-! NewsDataService has no exhausted set: `fetchNews` only advances the
cursor on a rate-limit-class error (401/403/429/"RateLimitExceeded"),
returns `[]` on other errors, and returns `[]` after the loop when every
credential failed. -/

inductive NDOutcome where
  | success (data : Nat)
  | rateLimit
  | otherError
deriving Repr, DecidableEq

structure NDState where
  currentKeyIndex : Nat
deriving Repr, DecidableEq

structure NDOut where
  /-- `some d` = articles returned; `none` = an empty list was returned. -/
  result : Option Nat
  state : NDState
  /-- Credentials on which an HTTP attempt was issued. -/
  called : List String
  /-- True when the loop ended with "All NewsData API keys exhausted!". -/
  allExhausted : Bool
deriving Repr, DecidableEq

/-- The `while (attempts < this.apiKeys.length)` loop of
`NewsDataService.fetchNews`. -/
def newsDataFetchAux (b : String → NDOutcome) (keys : List String) :
    NDState → Nat → NDOut
  | st, 0 => ⟨none, st, [], true⟩
  | st, fuel + 1 =>
    let key := keys.getD st.currentKeyIndex ""
    match b key with
    | .success d => ⟨some d, st, [key], false⟩
    | .rateLimit =>
      let out := newsDataFetchAux b keys ⟨(st.currentKeyIndex + 1) % keys.length⟩ fuel
      ⟨out.result, out.state, key :: out.called, out.allExhausted⟩
    | .otherError => ⟨none, st, [key], false⟩

/-- `NewsDataService.fetchNews` (key-rotation skeleton). -/
def newsDataFetch (b : String → NDOutcome) (keys : List String) (st : NDState) : NDOut :=
  newsDataFetchAux b keys st keys.length

/-! ## Scheduler interval selection

Two revisions exist in the repository.  The Google-Sheets scheduler
(`scheduleNext` in the sheets-control revision) starts from the sheet
interval (falling back to the env-config default when the sheet value is
falsy) and adopts the AI urgency suggestion only when strictly shorter.
The earlier cricket scheduler (src/src/orchestrator/scheduler.ts) starts
from the env-config interval and overwrites it unconditionally with the
AI suggestion whenever headlines were available and the evaluation
succeeded. -/

structure UrgencyResult where
  importance : String
  suggestedInterval : Nat
  isLiveEvent : Bool
deriving Repr, DecidableEq

/-- The `NORMAL`-mode default returned by
`BeastModeAI.evaluateContentUrgency` when neither the keyword heuristic
nor the AI flags urgency. -/
def normalUrgency : UrgencyResult := ⟨"NORMAL", 85, false⟩

/-- Interval selection of the sheets-control `Scheduler.scheduleNext`
(`urgency = none` models "no headlines" or a caught evaluation error). -/
def chooseIntervalSheets (tweetInterval defaultInterval : Nat) (isNewsTweet : Bool)
    (urgency : Option UrgencyResult) : Nat :=
  let interval := if tweetInterval ≠ 0 then tweetInterval else defaultInterval
  if isNewsTweet then
    match urgency with
    | some e => if e.suggestedInterval < interval then e.suggestedInterval else interval
    | none => interval
  else interval

/-- Interval selection of the earlier cricket `Scheduler.scheduleNext`:
`interval = evaluation.suggestedInterval` without any comparison. -/
def chooseIntervalCricket (defaultInterval : Nat) (urgency : Option UrgencyResult) : Nat :=
  match urgency with
  | some e => e.suggestedInterval
  | none => defaultInterval

/-! ## Memory, summarizer, evaluator (memory.ts / summarizer.agent.ts) -/

structure MemoryEntry where
  category : String
  originalSummary : String
  feedback : String
  refinedSummary : String
  improvement : Int
deriving Repr, DecidableEq

/-- `MemoryManager.store`: unshift the new entry, keep the most recent 100
(file persistence not modelled). -/
def memoryStore (mem : List MemoryEntry) (e : MemoryEntry) : List MemoryEntry :=
  (e :: mem).take 100

/-- `MemoryManager.getRecent`. -/
def memoryGetRecent (mem : List MemoryEntry) (category : String) (limit : Nat) : List String :=
  ((mem.filter (fun m => m.category = category)).take limit).map (·.feedback)

structure NewsSummary where
  category : String
  oneLiner : String
  sources : List String
  articles : List NewsArticle
deriving Repr, DecidableEq

/-- `[...new Set(xs)]`: first-occurrence de-duplication. -/
def jsSetDedupAux (seen : List String) : List String → List String
  | [] => []
  | x :: xs =>
    if seen.contains x then jsSetDedupAux seen xs
    else x :: jsSetDedupAux (x :: seen) xs

def jsSetDedup (l : List String) : List String := jsSetDedupAux [] l

/-- `SummarizerAgent.summarize`; `aiResult` is the outcome of
`ai.summarize` (`none` = threw, handled by the `catch`). -/
def summarizerSummarize (aiResult : Option String) (articles : List NewsArticle)
    (_maxChars : Nat) : NewsSummary :=
  match articles.head? with
  | none => ⟨"indian-news", "No news available at this time.", [], []⟩
  | some first =>
    let category := first.category
    match aiResult with
    | some oneLiner =>
      let cleanSummary :=
        jsTrimStr (String.mk ((stripEdgeQuotes oneLiner).data.map
          (fun c => if c = '\n' then ' ' else c)))
      ⟨category, cleanSummary, jsSetDedup (articles.map (·.source)), articles⟩
    | none =>
      ⟨category, String.mk (first.title.data.take 80), [first.source], articles⟩

structure EvaluationResult where
  passed : Bool
  score : Int
  feedback : String
deriving Repr, DecidableEq

/-! ## The reflexion quality loop inside `Pipeline.run`
(pipeline.ts lines 267–292)

`evalO summary iteration` abstracts `this.evaluator.evaluate(summary)`
(an AI call, hence modelled per iteration).  Note what the loop body
does NOT contain: no call to `RefinerAgent.refine`; `summary` is never
reassigned. -/

structure QLoopOut where
  summary : NewsSummary
  mem : List MemoryEntry
deriving Repr, DecidableEq

def qualityLoopAux (evalO : NewsSummary → Nat → EvaluationResult) (category : String) :
    NewsSummary → List MemoryEntry → Nat → Nat → QLoopOut
  | summary, mem, _iteration, 0 => ⟨summary, mem⟩
  | summary, mem, iteration, fuel + 1 =>
    let evaluation := evalO summary iteration
    if evaluation.passed then ⟨summary, mem⟩
    else
      let mem' := memoryStore mem
        ⟨category, summary.oneLiner, evaluation.feedback, "", 0⟩
      -- `const previousFeedback = memory.getRecent(category, 3);` —
      -- computed by the source but never used afterwards:
      let _previousFeedback := memoryGetRecent mem' category 3
      qualityLoopAux evalO category summary mem' (iteration + 1) fuel

/-- The `while (iteration < maxIterations)` loop of `Pipeline.run`. -/
def qualityLoop (evalO : NewsSummary → Nat → EvaluationResult) (category : String)
    (summary : NewsSummary) (mem : List MemoryEntry) (maxIterations : Nat) : QLoopOut :=
  qualityLoopAux evalO category summary mem 0 maxIterations

/-! ## TweetComposer (pipeline.ts lines 20–128) -/

def jsToUpper (c : Char) : Char :=
  if 'a' ≤ c ∧ c ≤ 'z' then Char.ofNat (c.toNat - 32) else c

/-- `w.charAt(0).toUpperCase() + w.slice(1).toLowerCase()`. -/
def capitalizeWord (w : String) : String :=
  match w.data with
  | [] => ""
  | c :: rest => String.mk (jsToUpper c :: rest.map jsToLower)

def isAllAlpha (w : String) : Bool :=
  w.data.all (fun c => isLowerAZ c || isUpperAZ c)

/-- JS `hay.lastIndexOf(pat)` (−1 when absent). -/
def lastIndexOfStr (hay pat : List Char) : Int :=
  match ((List.range (hay.length + 1)).filter
      (fun i => pat.isPrefixOf (hay.drop i))).getLast? with
  | some i => (i : Int)
  | none => -1

/-- `TweetComposer.truncateAtWord`.  The float thresholds
`maxLen * 0.4` / `maxLen * 0.6` are modelled exactly
(`5 * i > 2 * maxLen`, `5 * i > 3 * maxLen`). -/
def truncateAtWord (text : String) (maxLen : Nat) : String :=
  if text.length ≤ maxLen then text
  else
    let truncated := text.data.take maxLen
    let lastSentenceEnd :=
      max (lastIndexOfStr truncated ". ".data)
        (max (lastIndexOfStr truncated "! ".data)
          (max (lastIndexOfStr truncated "? ".data)
            (max (lastIndexOfStr truncated ".".data)
              (max (lastIndexOfStr truncated "!".data)
                (lastIndexOfStr truncated "?".data)))))
    if 5 * lastSentenceEnd > 2 * (maxLen : Int) then
      jsTrimStr (String.mk (truncated.take (lastSentenceEnd.toNat + 1)))
    else
      let lastSpace := lastIndexOfStr truncated " ".data
      if 5 * lastSpace > 3 * (maxLen : Int) then
        jsTrimStr (String.mk (truncated.take lastSpace.toNat)) ++ "..."
      else
        jsTrimStr (String.mk (truncated.take (maxLen - 3))) ++ "..."

/-- Stable insertion preserving original order among equal lengths
(JS `Array.prototype.sort` is stable). -/
def insertStory (x : String × String) : List (String × String) → List (String × String)
  | [] => [x]
  | y :: ys => if y.2.length ≥ x.2.length then y :: insertStory x ys else x :: y :: ys

/-- Sort by descending text length (`(a, b) => b.text.length - a.text.length`). -/
def sortByLenDesc (l : List (String × String)) : List (String × String) :=
  l.foldl (fun acc x => insertStory x acc) []

/-- `TweetComposer.getSortedStories` on the summaries map (an insertion-
ordered association list). -/
def getSortedStories (summaries : List (String × String)) : List (String × String) :=
  sortByLenDesc (summaries.filter
    (fun p => p.2 ≠ "" && decide (p.2.length > 15) && !jsIncludes p.2 "No news"))

structure SheetConfig where
  isActive : Bool
  isNewsTweet : Bool
  customTopic : String
  activeCategory : String
  activeCategories : List String
  hashtags : List String
  botEmoji : String
  maxDailyTweets : Nat
  generateImage : Bool
deriving Repr, DecidableEq

/-- `TweetComposer.buildTweetWithConfig`; `envBotEmoji` /
`envCustomHashtags` are `config.bot.botEmoji` / `config.bot.customHashtags`. -/
def buildTweetWithConfig (stories : List (String × String)) (cfg : SheetConfig)
    (envBotEmoji : String) (envCustomHashtags : List String) : String :=
  let emoji := if cfg.botEmoji ≠ "" then cfg.botEmoji else envBotEmoji
  let hashtags :=
    if cfg.hashtags ≠ [] ∧ cfg.hashtags.headD "" ≠ "" then joinSpace cfg.hashtags
    else if (stories.head?.map (·.1)) = some "custom" then
      let ws := (((stories.headD ("", "")).2.splitOn " ").filter
        (fun w => decide (w.length > 4) && isAllAlpha w)).take 2 |>.map capitalizeWord
      if ws ≠ [] then "#" ++ String.join ws else "#Interesting"
    else joinSpace envCustomHashtags
  match stories.head? with
  | none => "No updates at this time"
  | some story1 =>
    let text1 := truncateAtWord story1.2 200
    jsTrimStr (emoji ++ "\n\n" ++ text1 ++ (if hashtags ≠ "" then "\n\n" ++ hashtags else ""))

structure MegaTweet where
  headline : String
  summaries : List (String × String)
  opinion : Option String
  characterCount : Nat
  isThread : Bool
  tweets : List String
deriving Repr, DecidableEq

/-- `TweetComposer.compose`.  `cState = (dailyTweetCount, lastResetDate)`
holds the class-static counters; `today` is `new Date().toDateString()`. -/
def composerCompose (headline : String) (summaries : List (String × String))
    (cfg : SheetConfig) (opinion : Option String)
    (envBotEmoji : String) (envCustomHashtags : List String)
    (cState : Nat × String) (today : String) : MegaTweet × (Nat × String) :=
  let reset := if cState.2 ≠ today then (0, today) else cState
  let stories := getSortedStories summaries
  let tweets := [buildTweetWithConfig stories cfg envBotEmoji envCustomHashtags]
  let reset' := (reset.1 + 1, reset.2)
  (⟨headline, summaries, opinion, (tweets.map (·.length)).sum,
    decide (tweets.length > 1), tweets⟩, reset')

/-! ## Pipeline.run (pipeline.ts lines 160–424)

External collaborators (network, AI, image generation, posting) are
oracle fields of `PipelineEnv`; the posting adapter's three operations
are additionally recorded in a `PostCall` trace so that theorems can
speak about which posting calls a run issues. -/

structure PostResult where
  success : Bool
  tweetId : Option String
deriving Repr, DecidableEq

structure MegaPostResult where
  success : Bool
  tweetIds : List String
deriving Repr, DecidableEq

inductive PostCall where
  | postTweet (text : String)
  | postTweetWithImage (text : String) (imagePath : String)
  | postMegaTweet (tweets : List String)
deriving Repr, DecidableEq

structure ViralResult where
  finalTweet : String
  viralityScore : Int
  wasEnhanced : Bool
deriving Repr, DecidableEq

structure PipelineEnv where
  /-- The remote config snapshot returned by `getSheetConfig().getConfig()`. -/
  cfg : SheetConfig
  /-- `config.bot.activeCategory` (env fallback). -/
  envActiveCategory : String
  /-- `config.bot.botEmoji`. -/
  envBotEmoji : String
  /-- `config.bot.customHashtags`. -/
  envCustomHashtags : List String
  /-- `config.app.maxReflexionIterations` (default 3). -/
  maxReflexionIterations : Nat
  /-- `new Date().toDateString()`. -/
  today : String
  /-- `this.fetcher.fetch(category, 10)` result per category. -/
  fetch : String → List NewsArticle
  /-- `ai.summarize` outcome per category (`none` = threw). -/
  summarizeAI : String → Option String
  /-- `this.evaluator.evaluate(summary)` outcome per category and loop
  iteration (an AI call). -/
  evalO : String → NewsSummary → Nat → EvaluationResult
  /-- `ai.rewriteOriginal` outcome per category and originality attempt. -/
  rewriteO : String → Nat → Option String
  /-- `Math.random()` template pick of `generateSafeFallback`, per category. -/
  fallbackRnd : String → Fin 3
  /-- `this.headlineAgent.generate(summaries)` outcome. -/
  headlineRes : String
  /-- `ai.generateOpinion` outcome (`none` = threw). -/
  opinionRes : Option String
  /-- `ai.moderateContent(customTopic)` → `(isSafe, reason)`. -/
  moderation : Bool × String
  /-- `ai.generateCustomTopicTweet(customTopic, 200)` outcome. -/
  customTweetRes : String
  /-- `imageService.generateNewsImage(customTweet)` (custom mode). -/
  imageNews : Option String
  /-- `imageService.generateImageByCategory(activeCategory)` (news mode). -/
  imageByCategory : Option String
  /-- `viralityAgent.ensureViral(tweet, 1)` outcome (AI-driven). -/
  viral : String → ViralResult
  /-- `twitter.postTweet` result. -/
  postTweetRes : String → PostResult
  /-- `twitter.postTweetWithImage` result. -/
  postImageRes : String → String → PostResult
  /-- `twitter.postMegaTweet` result. -/
  postMegaRes : List String → MegaPostResult
  /-- The composer's static `(dailyTweetCount, lastResetDate)`. -/
  composerState : Nat × String

structure RunResult where
  success : Bool
  tweetIds : List String
  summaries : List (String × String)
deriving Repr, DecidableEq

structure RunOut where
  result : RunResult
  /-- Posting-adapter operations invoked during the run, in order. -/
  posts : List PostCall
  mem : List MemoryEntry
  composerState : Nat × String
deriving Repr, DecidableEq

/-- `Map.set` on an insertion-ordered association list. -/
def assocSet (l : List (String × String)) (k v : String) : List (String × String) :=
  if l.any (fun p => p.1 = k) then
    l.map (fun p => if p.1 = k then (k, v) else p)
  else l ++ [(k, v)]

/-- The `for (const category of categories)` loop of the news branch of
`Pipeline.run`: fetch, skip on zero fresh articles, summarize, run the
reflexion loop, run the originality check, store the final summary. -/
def newsCategoryLoop (env : PipelineEnv) :
    List String → List (String × String) → List MemoryEntry →
    List (String × String) × List MemoryEntry
  | [], summaries, mem => (summaries, mem)
  | category :: rest, summaries, mem =>
    let articles := env.fetch category
    if articles.length = 0 then
      newsCategoryLoop env rest summaries mem
    else
      let maxChars := 200
      let summary := summarizerSummarize (env.summarizeAI category) articles maxChars
      let q := qualityLoop (env.evalO category) category summary mem env.maxReflexionIterations
      let originalTitles := articles.map (·.title)
      let originalResult := ensureOriginal (env.rewriteO category) (env.fallbackRnd category)
        q.summary.oneLiner originalTitles 2 maxChars
      newsCategoryLoop env rest (assocSet summaries category originalResult.finalSummary) q.mem

/-- `Pipeline.run`.  `isRunning` is the re-entrancy guard's value on
entry; `mem0` is the memory log's state.  The `finally` clearing of the
guard and the artificial delays are not modelled. -/
def pipelineRun (env : PipelineEnv) (isRunning : Bool) (mem0 : List MemoryEntry)
    (userOpinion : Option String) : RunOut :=
  if isRunning then ⟨⟨false, [], []⟩, [], mem0, env.composerState⟩
  else
    let cfg := env.cfg
    if ¬ cfg.isActive then ⟨⟨false, [], []⟩, [], mem0, env.composerState⟩
    else if ¬ cfg.isNewsTweet ∧ cfg.customTopic ≠ "" then
      -- Custom-topic mode
      if ¬ env.moderation.1 then ⟨⟨false, [], []⟩, [], mem0, env.composerState⟩
      else
        let customTweet := env.customTweetRes
        let summaries := [("custom", customTweet)]
        let emoji := if cfg.botEmoji ≠ "" then cfg.botEmoji else env.envBotEmoji
        let isDefaultHashtags := cfg.hashtags = ["#News", "#Breaking"]
        let hashtags :=
          if cfg.hashtags ≠ [] ∧ cfg.hashtags.headD "" ≠ "" ∧ ¬ isDefaultHashtags then
            joinSpace cfg.hashtags
          else
            let topicWords := ((cfg.customTopic.splitOn " ").filter
              (fun w => decide (w.length > 3) && isAllAlpha w)).take 2 |>.map capitalizeWord
            if topicWords ≠ [] then "#" ++ String.join topicWords else "#Trending"
        let fullTweet := emoji ++ "\n\n" ++ customTweet ++ "\n\n" ++ hashtags
        let imagePath := if cfg.generateImage then env.imageNews else none
        match imagePath with
        | some p =>
          let r := env.postImageRes fullTweet p
          ⟨⟨r.success, (match r.tweetId with | some i => [i] | none => []), summaries⟩,
            [.postTweetWithImage fullTweet p], mem0, env.composerState⟩
        | none =>
          let r := env.postTweetRes fullTweet
          ⟨⟨r.success, (match r.tweetId with | some i => [i] | none => []), summaries⟩,
            [.postTweet fullTweet], mem0, env.composerState⟩
    else
      -- News mode
      let categories :=
        if cfg.activeCategories.length > 0 then cfg.activeCategories
        else [env.envActiveCategory]
      let loopOut := newsCategoryLoop env categories [] mem0
      let summaries := loopOut.1
      let mem1 := loopOut.2
      if summaries.length = 0 then
        ⟨⟨false, [], summaries⟩, [], mem1, env.composerState⟩
      else
        let headline := env.headlineRes
        let needGen := match userOpinion with
          | none => true
          | some o => jsTrimStr o = ""
        let mainSummary : Option String :=
          match summaries.lookup "indian-news" with
          | some s => if s ≠ "" then some s else summaries.head?.map (·.2)
          | none => summaries.head?.map (·.2)
        let opinion : Option String :=
          if needGen then
            match mainSummary with
            | some m =>
              if m ≠ "" ∧ m ≠ "No updates at this time" then
                match env.opinionRes with
                | some op => some op
                | none => userOpinion
              else userOpinion
            | none => userOpinion
          else userOpinion
        let composed := composerCompose headline summaries cfg opinion
          env.envBotEmoji env.envCustomHashtags env.composerState env.today
        let megaTweet := composed.1
        let cState1 := composed.2
        let viralResult := env.viral (megaTweet.tweets.headD "")
        let tweets' :=
          if viralResult.wasEnhanced ∧ viralResult.viralityScore ≥ 6 then
            match megaTweet.tweets with
            | [] => []
            | _ :: rest => viralResult.finalTweet :: rest
          else megaTweet.tweets
        let firstTweet := tweets'.headD ""
        if jsIncludes (toLowerStr firstTweet) "no updates" ∨ firstTweet.length < 20 then
          ⟨⟨false, [], summaries⟩, [], mem1, cState1⟩
        else
          let imagePath := if cfg.generateImage then env.imageByCategory else none
          match imagePath with
          | some p =>
            let r := env.postImageRes firstTweet p
            ⟨⟨r.success, (match r.tweetId with | some i => [i] | none => []), summaries⟩,
              [.postTweetWithImage firstTweet p], mem1, cState1⟩
          | none =>
            let r := env.postMegaRes tweets'
            ⟨⟨r.success, r.tweetIds, summaries⟩, [.postMegaTweet tweets'], mem1, cState1⟩

/-! # Theorems -/

/-! ## C9 — scheduler interval selection -/

/-- Claim C9, as stated, is false on the cricket scheduler revision
(src/src/orchestrator/scheduler.ts line 82): with a configured interval of
30 minutes and a successful urgency evaluation returning the NORMAL
default (suggested interval 85), the timer is re-armed for 85 minutes,
which exceeds the configured 30. -/
theorem C9_counterexample :
    chooseIntervalCricket 30 (some normalUrgency) = 85 ∧ ¬ (85 ≤ 30) := by
  decide

/-- Claim C9, amended: the Sheets-control scheduler never exceeds the
configured interval (the sheet interval, falling back to the env default
when the sheet value is falsy) — the AI suggestion is adopted only when
strictly shorter; the earlier cricket scheduler instead adopts the
suggestion unconditionally whenever the evaluation succeeds. -/
theorem C9_interval_never_exceeds_configured :
    (∀ (tweetInterval defaultInterval : Nat) (isNewsTweet : Bool)
       (u : Option UrgencyResult),
      chooseIntervalSheets tweetInterval defaultInterval isNewsTweet u ≤
        (if tweetInterval ≠ 0 then tweetInterval else defaultInterval))
    ∧ (∀ (defaultInterval : Nat) (e : UrgencyResult),
      chooseIntervalCricket defaultInterval (some e) = e.suggestedInterval) := by
  constructor
  · intro ti di isNews u
    cases u with
    | none => cases isNews <;> simp [chooseIntervalSheets]
    | some e =>
      cases isNews with
      | false => simp [chooseIntervalSheets]
      | true =>
        show (if e.suggestedInterval < (if ti ≠ 0 then ti else di) then
            e.suggestedInterval else (if ti ≠ 0 then ti else di)) ≤
          (if ti ≠ 0 then ti else di)
        generalize (if ti ≠ 0 then ti else di) = X
        split <;> omega
  · intro di e
    rfl

/-! ## C5 — the reflexion loop never refines -/

/-- Helper: the loop returns its input summary on every path. -/
theorem qualityLoopAux_summary_fixed
    (evalO : NewsSummary → Nat → EvaluationResult) (category : String) :
    ∀ (fuel it : Nat) (s : NewsSummary) (mem : List MemoryEntry),
      (qualityLoopAux evalO category s mem it fuel).summary = s := by
  intro fuel
  induction fuel with
  | zero => intro it s mem; rfl
  | succ n ih =>
    intro it s mem
    simp only [qualityLoopAux]
    split
    · rfl
    · exact ih (it + 1) s _

/-- An example summary for the failing-input computation. -/
def exampleSummary : NewsSummary :=
  ⟨"cricket", "Team India wins the series decider in Mumbai", ["ESPN"], []⟩

/-- Claim C5 describes the intended reflexion behaviour, but the loop body
in `Pipeline.run` (pipeline.ts 271–292) contains no call to
`RefinerAgent.refine`: the summary is never reassigned, so every iteration
re-evaluates the identical text (first conjunct, for all oracles).  The
second conjunct evaluates the loop at a failing input — an evaluator that
always fails with score 4 — showing the summary unchanged after the full
3 iterations and the three memory entries recorded with an empty
`refinedSummary`, exactly as the dead comment `// Will be updated after
refinement` left them. -/
theorem C5_loop_never_refines :
    (∀ (evalO : NewsSummary → Nat → EvaluationResult) (category : String)
       (s : NewsSummary) (mem : List MemoryEntry) (maxIterations : Nat),
      (qualityLoop evalO category s mem maxIterations).summary = s)
    ∧ qualityLoop (fun _ _ => ⟨false, 4, "too vague"⟩) "cricket" exampleSummary [] 3 =
        ⟨exampleSummary,
         [⟨"cricket", "Team India wins the series decider in Mumbai", "too vague", "", 0⟩,
          ⟨"cricket", "Team India wins the series decider in Mumbai", "too vague", "", 0⟩,
          ⟨"cricket", "Team India wins the series decider in Mumbai", "too vague", "", 0⟩]⟩ := by
  constructor
  · intro evalO category s mem maxIterations
    exact qualityLoopAux_summary_fixed evalO category maxIterations 0 s mem
  · decide

/-! ## C10 — ensureOriginal always reports original -/

/-- Helper: every return path of the attempt loop carries
`isOriginal = true`. -/
theorem ensureOriginalAux_isOriginal
    (rw : Nat → Option String) (titles : List String) (rnd : Fin 3) (maxA : Nat) :
    ∀ (n : Nat) (s : String),
      (ensureOriginalAux rw titles rnd maxA s n).isOriginal = true := by
  intro n
  induction n with
  | zero => intro s; rfl
  | succ k ih =>
    intro s
    simp only [ensureOriginalAux]
    cases rw (maxA - k) with
    | none => exact ih s
    | some rwText =>
      simp only
      split
      · exact ih _
      · rfl

/-- Claim C10: `ensureOriginal` returns `isOriginal = true` on every path
— the success path and the templated safe-fallback path alike (so the
caller's `else` branch logging "Summary may need manual review" in
`Pipeline.run` can never execute) — and the safe fallback text is at most
80 characters. -/
theorem C10_ensure_original_always_original :
    ∀ (rw : Nat → Option String) (rnd : Fin 3) (summary : String)
      (titles : List String) (maxAttempts maxChars : Nat),
      (ensureOriginal rw rnd summary titles maxAttempts maxChars).isOriginal = true ∧
      (generateSafeFallback titles rnd).length ≤ 80 := by
  intro rw rnd summary titles maxAttempts maxChars
  refine ⟨ensureOriginalAux_isOriginal rw titles rnd maxAttempts maxAttempts summary, ?_⟩
  show (List.take 80 _).length ≤ 80
  exact List.length_take_le 80 _

/-! ## Helper lemmas on the AI gateway -/

/-- With a failing primary (`mistralResult = none`), `generate` reduces to
the fallback stage whether or not a Mistral client exists. -/
theorem generate_none (st : BeastState) (now : Int) (prompt : String)
    (g : Except String String) :
    generate st now prompt none g = generateFallback st now prompt g := by
  obtain ⟨hm, _, _, _, _⟩ := st
  cases hm <;> rfl

theorem isGeminiAvailable_closed (st : BeastState) (now : Int)
    (hg : st.hasGemini = true) (hd : st.geminiDisabled = false) :
    isGeminiAvailable st now = (true, st) := by
  simp [isGeminiAvailable, hg, hd]

theorem isGeminiAvailable_open (st : BeastState) (now : Int)
    (hd : st.geminiDisabled = true) (hu : ¬ now > st.geminiDisabledUntil) :
    isGeminiAvailable st now = (false, st) := by
  by_cases hg : st.hasGemini = true
  · simp [isGeminiAvailable, hg, hd, hu]
  · simp [isGeminiAvailable, hg]

theorem isGeminiAvailable_expired (st : BeastState) (now : Int)
    (hg : st.hasGemini = true) (hd : st.geminiDisabled = true)
    (hu : now > st.geminiDisabledUntil) :
    isGeminiAvailable st now =
      (true, { st with geminiDisabled := false, geminiFailCount := 0 }) := by
  simp [isGeminiAvailable, hg, hd, hu]

theorem generateFallback_open (st : BeastState) (now : Int) (prompt : String)
    (g : Except String String)
    (hd : st.geminiDisabled = true) (hu : ¬ now > st.geminiDisabledUntil) :
    generateFallback st now prompt g = ⟨getSafeDefault prompt, st, false⟩ := by
  simp [generateFallback, isGeminiAvailable_open st now hd hu]

theorem generateFallback_closed_error (st : BeastState) (now : Int)
    (prompt msg : String)
    (hg : st.hasGemini = true) (hd : st.geminiDisabled = false) :
    generateFallback st now prompt (.error msg) =
      ⟨getSafeDefault prompt, handleGeminiFailure st now msg, true⟩ := by
  simp [generateFallback, isGeminiAvailable_closed st now hg hd, hg]

/-- Whenever the secondary call fails, the text returned is the safe
default, regardless of the breaker state. -/
theorem generateFallback_error_text (st : BeastState) (now : Int)
    (prompt msg : String) :
    (generateFallback st now prompt (.error msg)).text = getSafeDefault prompt := by
  simp only [generateFallback]
  split <;> rfl

theorem handleGeminiFailure_rl (st : BeastState) (now : Int) (msg : String)
    (h : isRateLimitMsg msg = true) :
    handleGeminiFailure st now msg =
      { st with
        geminiFailCount := st.geminiFailCount + 1
        geminiDisabled := true
        geminiDisabledUntil := now + 5 * 60 * 1000 } := by
  simp [handleGeminiFailure, h]

theorem handleGeminiFailure_non3 (st : BeastState) (now : Int) (msg : String)
    (h : isRateLimitMsg msg = false) (hc : st.geminiFailCount + 1 < 3) :
    handleGeminiFailure st now msg =
      { st with geminiFailCount := st.geminiFailCount + 1 } := by
  simp [handleGeminiFailure, h, Nat.not_le.mpr hc]

theorem handleGeminiFailure_third (st : BeastState) (now : Int) (msg : String)
    (h : isRateLimitMsg msg = false) (hc : st.geminiFailCount + 1 ≥ 3) :
    handleGeminiFailure st now msg =
      { st with
        geminiFailCount := st.geminiFailCount + 1
        geminiDisabled := true
        geminiDisabledUntil := now + 2 * 60 * 1000 } := by
  simp [handleGeminiFailure, h, hc]

/-! ## C2 — generate never throws; keyword-matched safe defaults -/

/-- Claim C2: `generate` is total by construction (the embedding returns a
string on every path), and whenever the primary provider fails
(`mistralResult = none`) and the secondary is unavailable (absent, or its
circuit is open and not yet expired) or also fails, the returned text is
exactly `getSafeDefault prompt`; the remaining conjuncts pin down the
keyword dispatch of `getSafeDefault` — in the source's test order — to the
five fixed strings of the code. -/
theorem C2_safe_default_on_total_failure :
    (∀ (st : BeastState) (now : Int) (prompt : String) (geminiRes : Except String String),
      (st.hasGemini = false ∨
        (st.geminiDisabled = true ∧ ¬ now > st.geminiDisabledUntil) ∨
        (∃ msg, geminiRes = .error msg)) →
      (generate st now prompt none geminiRes).text = getSafeDefault prompt)
    ∧ (∀ prompt : String,
        (jsIncludes prompt "summary" || jsIncludes prompt "NEWS") = true →
        getSafeDefault prompt = "Breaking news update - check back soon! 📰")
    ∧ (∀ prompt : String,
        (jsIncludes prompt "summary" || jsIncludes prompt "NEWS") = false →
        jsIncludes prompt "headline" = true →
        getSafeDefault prompt = "🔥 News Digest | Today")
    ∧ (∀ prompt : String,
        (jsIncludes prompt "summary" || jsIncludes prompt "NEWS") = false →
        jsIncludes prompt "headline" = false →
        (jsIncludes prompt "virality" || jsIncludes prompt "score") = true →
        getSafeDefault prompt = "\x7b\"score\": 7, \"suggestions\": []\x7d")
    ∧ (∀ prompt : String,
        (jsIncludes prompt "summary" || jsIncludes prompt "NEWS") = false →
        jsIncludes prompt "headline" = false →
        (jsIncludes prompt "virality" || jsIncludes prompt "score") = false →
        jsIncludes prompt "Rewrite" = true →
        getSafeDefault prompt = "News: Latest headlines and updates! 📰")
    ∧ (∀ prompt : String,
        (jsIncludes prompt "summary" || jsIncludes prompt "NEWS") = false →
        jsIncludes prompt "headline" = false →
        (jsIncludes prompt "virality" || jsIncludes prompt "score") = false →
        jsIncludes prompt "Rewrite" = false →
        getSafeDefault prompt = "Update coming soon...") := by
  refine ⟨?_, ?_, ?_, ?_, ?_, ?_⟩
  · intro st now prompt geminiRes h
    rw [generate_none]
    rcases h with hng | ⟨hd, hu⟩ | ⟨msg, rfl⟩
    · simp [generateFallback, isGeminiAvailable, hng]
    · rw [generateFallback_open st now prompt geminiRes hd hu]
    · exact generateFallback_error_text st now prompt msg
  all_goals intro prompt <;> intros <;> simp_all [getSafeDefault]

/-- Closed instance for C2: secondary provider absent, primary failing. -/
theorem C2_safe_default_witness :
    (generate ⟨true, false, false, 0, 0⟩ 0 "tell me something" none
      (Except.ok "unused")).text = getSafeDefault "tell me something" :=
  C2_safe_default_on_total_failure.1 ⟨true, false, false, 0, 0⟩ 0 "tell me something"
    (Except.ok "unused") (Or.inl rfl)

/-! ## C3 — the secondary provider's circuit breaker -/

/-- Claim C3, in four parts, for a call whose primary provider fails
(`mistralResult = none`):
1. a rate-limit failure of the secondary opens the circuit until
   `now + 5` minutes;
2. from a fresh closed state, three consecutive non-rate-limit failures
   leave the circuit closed after the first two and open it until
   `t3 + 2` minutes at the third;
3. while the circuit is open and the cooldown not passed, no call reaches
   the secondary provider and the breaker state is unchanged;
4. once the cooldown has passed, the circuit closes, the failure counter
   resets, and the call reaches the provider again. -/
theorem C3_gemini_circuit_breaker :
    (∀ (st : BeastState) (now : Int) (prompt msg : String),
      st.hasGemini = true → st.geminiDisabled = false → isRateLimitMsg msg = true →
      (generate st now prompt none (.error msg)).state.geminiDisabled = true ∧
      (generate st now prompt none (.error msg)).state.geminiDisabledUntil =
        now + 5 * 60 * 1000)
    ∧ (∀ (st0 : BeastState) (t1 t2 t3 : Int) (p1 p2 p3 m1 m2 m3 : String),
      st0.hasGemini = true → st0.geminiDisabled = false → st0.geminiFailCount = 0 →
      isRateLimitMsg m1 = false → isRateLimitMsg m2 = false → isRateLimitMsg m3 = false →
      (generate st0 t1 p1 none (.error m1)).state.geminiDisabled = false ∧
      (generate (generate st0 t1 p1 none (.error m1)).state
        t2 p2 none (.error m2)).state.geminiDisabled = false ∧
      (generate (generate (generate st0 t1 p1 none (.error m1)).state
        t2 p2 none (.error m2)).state t3 p3 none (.error m3)).state.geminiDisabled = true ∧
      (generate (generate (generate st0 t1 p1 none (.error m1)).state
        t2 p2 none (.error m2)).state t3 p3 none (.error m3)).state.geminiDisabledUntil =
        t3 + 2 * 60 * 1000)
    ∧ (∀ (st : BeastState) (now : Int) (prompt : String) (g : Except String String),
      st.geminiDisabled = true → ¬ now > st.geminiDisabledUntil →
      (generate st now prompt none g).usedGemini = false ∧
      (generate st now prompt none g).state = st)
    ∧ (∀ (st : BeastState) (now : Int) (prompt t : String),
      st.hasGemini = true → st.geminiDisabled = true → now > st.geminiDisabledUntil →
      (generate st now prompt none (.ok t)).usedGemini = true ∧
      (generate st now prompt none (.ok t)).text = t ∧
      (generate st now prompt none (.ok t)).state.geminiDisabled = false ∧
      (generate st now prompt none (.ok t)).state.geminiFailCount = 0) := by
  refine ⟨?_, ?_, ?_, ?_⟩
  · intro st now prompt msg hg hd hrl
    rw [generate_none, generateFallback_closed_error st now prompt msg hg hd,
      handleGeminiFailure_rl st now msg hrl]
    exact ⟨rfl, rfl⟩
  · intro st0 t1 t2 t3 p1 p2 p3 m1 m2 m3 hg hd hf h1 h2 h3
    have e1 : (generate st0 t1 p1 none (Except.error m1)).state =
        { st0 with geminiFailCount := st0.geminiFailCount + 1 } := by
      rw [generate_none, generateFallback_closed_error st0 t1 p1 m1 hg hd]
      exact handleGeminiFailure_non3 st0 t1 m1 h1 (by omega)
    have e2 : (generate (generate st0 t1 p1 none (Except.error m1)).state t2 p2 none
        (Except.error m2)).state =
        { st0 with geminiFailCount := st0.geminiFailCount + 1 + 1 } := by
      rw [e1, generate_none,
        generateFallback_closed_error
          { st0 with geminiFailCount := st0.geminiFailCount + 1 } t2 p2 m2 hg hd]
      exact handleGeminiFailure_non3 _ t2 m2 h2
        (by show st0.geminiFailCount + 1 + 1 < 3; omega)
    refine ⟨?_, ?_, ?_, ?_⟩
    · rw [e1]; exact hd
    · rw [e2]; exact hd
    · rw [e2, generate_none,
        generateFallback_closed_error
          { st0 with geminiFailCount := st0.geminiFailCount + 1 + 1 } t3 p3 m3 hg hd,
        handleGeminiFailure_third _ t3 m3 h3
          (by show st0.geminiFailCount + 1 + 1 + 1 ≥ 3; omega)]
    · rw [e2, generate_none,
        generateFallback_closed_error
          { st0 with geminiFailCount := st0.geminiFailCount + 1 + 1 } t3 p3 m3 hg hd,
        handleGeminiFailure_third _ t3 m3 h3
          (by show st0.geminiFailCount + 1 + 1 + 1 ≥ 3; omega)]
  · intro st now prompt g hd hu
    rw [generate_none, generateFallback_open st now prompt g hd hu]
    exact ⟨rfl, rfl⟩
  · intro st now prompt t hg hd hu
    rw [generate_none]
    simp [generateFallback, isGeminiAvailable_expired st now hg hd hu, hg]

/-- Closed instance for C3: a rate-limited secondary call at time 1000
opens the circuit until 301000. -/
theorem C3_circuit_breaker_witness :
    (generate ⟨false, true, false, 0, 0⟩ 1000 "p" none
      (Except.error "Request failed with status code 429")).state.geminiDisabled = true ∧
    (generate ⟨false, true, false, 0, 0⟩ 1000 "p" none
      (Except.error "Request failed with status code 429")).state.geminiDisabledUntil =
      1000 + 5 * 60 * 1000 :=
  C3_gemini_circuit_breaker.1 ⟨false, true, false, 0, 0⟩ 1000 "p"
    "Request failed with status code 429" rfl rfl (by decide)

/-! ## C6 — evaluation pass threshold -/

/-- A provider response whose JSON object carries `score: 0`. -/
def evalScoreZeroResponse : String :=
  "\x7b\"score\": 0, \"feedback\": \"inaccurate\"\x7d"

/-- `JSON.parse` on exactly that object (an oracle instantiation: this is
what `JSON.parse` returns on this input, restricted to the two fields the
code reads). -/
def parseScoreZero : String → Option EvalJson :=
  fun s => if s = evalScoreZeroResponse then some ⟨some 0, some "inaccurate"⟩ else none

/-- Claim C6, as stated, is false: on a response whose parsed score is 0 —
inside the claimed 0–10 range and far below the threshold 7 — `evaluate`
returns `passed = true` (and reports score 7), because `result.score || 7`
treats the falsy score 0 as absent. -/
theorem C6_counterexample :
    jsMatchBraces evalScoreZeroResponse = some evalScoreZeroResponse ∧
    parseScoreZero evalScoreZeroResponse = some ⟨some 0, some "inaccurate"⟩ ∧
    (evaluate parseScoreZero evalScoreZeroResponse).passed = true ∧
    (evaluate parseScoreZero evalScoreZeroResponse).score = 7 ∧
    ¬ ((0 : Int) ≥ 7) := by
  refine ⟨by decide, by decide, by decide, by decide, by decide⟩

/-- Claim C6, amended: `evaluate` fails a summary exactly when the
response contains a brace-delimited JSON object that parses with a
PRESENT, NONZERO score below 7 (an absent or zero score falls back to the
default 7 and passes); equivalently, `passed` is true exactly when the
returned effective score is at least 7; a response with no JSON object,
or one `JSON.parse` rejects, yields the optimistic default pass at score
7 — and the function is total, so no exception escapes. -/
theorem C6_evaluate_pass_characterization :
    ∀ (parse : String → Option EvalJson) (response : String),
      ((evaluate parse response).passed = false ↔
        (∃ m j s, jsMatchBraces response = some m ∧ parse m = some j ∧
          j.score = some s ∧ s ≠ 0 ∧ s < 7))
      ∧ ((evaluate parse response).passed = true ↔
          (evaluate parse response).score ≥ 7)
      ∧ (jsMatchBraces response = none →
          evaluate parse response = ⟨true, 7, ""⟩)
      ∧ (∀ m, jsMatchBraces response = some m → parse m = none →
          evaluate parse response = ⟨true, 7, ""⟩) := by
  intro parse response
  refine ⟨?_, ?_, ?_, ?_⟩
  · cases hb : jsMatchBraces response with
    | none => simp [evaluate, hb]
    | some m =>
      cases hp : parse m with
      | none => simp [evaluate, hb, hp]
      | some j =>
        cases hs : j.score with
        | none => simp [evaluate, hb, hp, jsOrScore, hs]
        | some v =>
          by_cases hz : v = 0
          · simp [evaluate, hb, hp, jsOrScore, hs, hz]
          · simp only [evaluate, hb, hp, jsOrScore, hs]
            constructor
            · intro hfail
              refine ⟨m, j, v, rfl, hp, hs, hz, ?_⟩
              by_contra hlt
              simp [hz, decide_eq_true_eq] at hfail
              omega
            · rintro ⟨m', j', s', hm', hp', hs', hz', hlt'⟩
              have hmm : m' = m := (Option.some_inj.mp hm').symm
              subst hmm
              have hjj : j' = j := Option.some_inj.mp (hp'.symm.trans hp)
              subst hjj
              have hss : s' = v := Option.some_inj.mp (hs'.symm.trans hs)
              subst hss
              simp [hz, decide_eq_true_eq]
              omega
  · cases hb : jsMatchBraces response with
    | none => simp [evaluate, hb]
    | some m =>
      cases hp : parse m with
      | none => simp [evaluate, hb, hp]
      | some j => simp [evaluate, hb, hp]
  · intro hb; simp [evaluate, hb]
  · intro m hb hp; simp [evaluate, hb, hp]

/-- Closed instance for C6's amended claim: a response with no JSON object
yields the optimistic default pass. -/
theorem C6_evaluate_witness :
    evaluate parseScoreZero "no json here" = ⟨true, 7, ""⟩ :=
  (C6_evaluate_pass_characterization parseScoreZero "no json here").2.2.1 (by decide)

/-! ## C7 — originality similarity tests -/

/-- Claim C7, as stated, is false in its overlap direction: the candidate
"alpha bravo" consists of 2 significant words, both of which appear in the
original title (which has 6 significant words), so the claim's
candidate-side ratio (100% > 50%) flags it — but the code's `isTooSimilar`
divides by the TITLE's significant word count (2/6 ≤ 50%) and does not
flag it. -/
theorem C7_counterexample :
    claimC7Similar "alpha bravo" ["alpha bravo charlie delta echoes foxtrots"] = true ∧
    isTooSimilar "alpha bravo" ["alpha bravo charlie delta echoes foxtrots"] = false := by
  refine ⟨by decide, by decide⟩

/-- Helper: when every rewrite the oracle can return is too similar, the
attempt loop falls through to the safe fallback. -/
theorem ensureOriginalAux_all_similar (rw : Nat → Option String)
    (titles : List String) (rnd : Fin 3) (maxA : Nat)
    (hsim : ∀ i r, rw i = some r → isTooSimilar (cleanRewrite r) titles = true) :
    ∀ (n : Nat) (s : String),
      ensureOriginalAux rw titles rnd maxA s n =
        ⟨generateSafeFallback titles rnd, true, maxA⟩ := by
  intro n
  induction n with
  | zero => intro s; rfl
  | succ k ih =>
    intro s
    simp only [ensureOriginalAux]
    cases hrw : rw (maxA - k) with
    | none => exact ih s
    | some r =>
      simp only [hsim _ r hrw, if_true]
      exact ih _

/-- Claim C7, amended: `isTooSimilar` flags a candidate exactly when some
original title trips (a) the phrase test — some 5 consecutive words among
the title's words longer than 2 characters, joined by single spaces,
occurring inside the lowercased candidate — or (b) the overlap test with
the ratio taken over the TITLE's significant words (more than 50% of the
title's significant words occurring among the candidate's significant
words, when the title has more than 5 of them).  A candidate containing a
verbatim 5-word phrase is always flagged (second conjunct), and when every
rewrite attempt remains too similar, `ensureOriginal` returns the
templated safe fallback — never one of the near-duplicate rewrites (third
conjunct). -/
theorem C7_similarity_characterization :
    (∀ (text : String) (originals : List String),
      isTooSimilar text originals = true ↔
        ∃ original ∈ originals,
          phraseHit text original = true ∨ overlapHit text original = true)
    ∧ (∀ (text original : String) (originals : List String),
        original ∈ originals → phraseHit text original = true →
        isTooSimilar text originals = true)
    ∧ (∀ (rw : Nat → Option String) (rnd : Fin 3) (s : String)
         (titles : List String) (maxA maxChars : Nat),
        (∀ i r, rw i = some r → isTooSimilar (cleanRewrite r) titles = true) →
        ensureOriginal rw rnd s titles maxA maxChars =
          ⟨generateSafeFallback titles rnd, true, maxA⟩) := by
  refine ⟨?_, ?_, ?_⟩
  · intro text originals
    simp [isTooSimilar, List.any_eq_true]
  · intro text original originals hmem hph
    simp only [isTooSimilar, List.any_eq_true]
    exact ⟨original, hmem, by simp [hph]⟩
  · intro rw rnd s titles maxA maxChars hsim
    exact ensureOriginalAux_all_similar rw titles rnd maxA hsim maxA s


/-- Closed instance for C7's amended claim: a candidate containing a
verbatim 5-word phrase of the title is flagged. -/
theorem C7_similarity_witness :
    isTooSimilar "the quick brown foxes jumped over here"
      ["the quick brown foxes jumped over again"] = true :=
  C7_similarity_characterization.2.1 "the quick brown foxes jumped over here"
    "the quick brown foxes jumped over again"
    ["the quick brown foxes jumped over again"] (by simp) (by decide)

/-! ## C8 — aggregator merge / deduplication -/

/-- Helper: every article emitted by `mergeAux` passed the length filter
and its key was new relative to `seen`. -/
theorem mergeAux_mem_facts (a : NewsArticle) :
    ∀ (xs : List NewsArticle) (seen : List String), a ∈ mergeAux seen xs →
      a.title ≠ "" ∧ a.title.length > 10 ∧ normalizeTitle a.title ∉ seen := by
  intro xs
  induction xs with
  | nil =>
    intro seen h
    simp [mergeAux] at h
  | cons b rest ih =>
    intro seen h
    simp only [mergeAux] at h
    split at h
    · rcases List.mem_cons.mp h with hab | htail
      · subst hab
        rename_i hcond
        refine ⟨hcond.2.1, hcond.2.2, ?_⟩
        intro hmem
        exact hcond.1 (List.elem_iff.mpr hmem)
      · have := ih (normalizeTitle b.title :: seen) htail
        exact ⟨this.1, this.2.1, fun hm => this.2.2 (List.mem_cons_of_mem _ hm)⟩
    · exact ih seen h

/-- Helper: the emitted articles have pairwise-distinct normalized keys. -/
theorem mergeAux_pairwise :
    ∀ (xs : List NewsArticle) (seen : List String),
      (mergeAux seen xs).Pairwise
        (fun a b => normalizeTitle a.title ≠ normalizeTitle b.title) := by
  intro xs
  induction xs with
  | nil => intro seen; simp [mergeAux]
  | cons b rest ih =>
    intro seen
    simp only [mergeAux]
    split
    · refine List.Pairwise.cons ?_ (ih (normalizeTitle b.title :: seen))
      intro c hc
      have := (mergeAux_mem_facts c rest (normalizeTitle b.title :: seen) hc).2.2
      intro he
      exact this (he ▸ List.mem_cons_self _ _)
    · exact ih seen

/-- Helper: `mergeAux` is idempotent at any `seen`. -/
theorem mergeAux_idem :
    ∀ (xs : List NewsArticle) (seen : List String),
      mergeAux seen (mergeAux seen xs) = mergeAux seen xs := by
  intro xs
  induction xs with
  | nil => intro seen; rfl
  | cons b rest ih =>
    intro seen
    by_cases h : ¬ seen.contains (normalizeTitle b.title) ∧ b.title ≠ "" ∧
        b.title.length > 10
    · rw [show mergeAux seen (b :: rest) =
          b :: mergeAux (normalizeTitle b.title :: seen) rest from by
        simp only [mergeAux]; rw [if_pos h]]
      conv_lhs => simp only [mergeAux]
      rw [if_pos h]
      rw [ih (normalizeTitle b.title :: seen)]
    · rw [show mergeAux seen (b :: rest) = mergeAux seen rest from by
        simp only [mergeAux]; rw [if_neg h]]
      exact ih seen

/-- Claim C8, as stated, is false at the length boundary: an article whose
title is exactly 10 characters long is neither empty nor "under 10
characters", yet the merge discards it (`title.length > 10` fails). -/
theorem C8_counterexample :
    ¬ claimC8Discards ⟨"abcdefghij", "d", "src", "url", 0, "cricket"⟩ ∧
    mergeAndDeduplicate [⟨"abcdefghij", "d", "src", "url", 0, "cricket"⟩] = [] := by
  refine ⟨by unfold claimC8Discards; decide, by decide⟩

/-- Claim C8, amended: the merge keeps only articles whose raw title is
longer than 10 characters (so nonempty; titles of exactly 10 characters
are discarded too), keeps at most one article per normalized title, is
idempotent, and collapses a pair with equal normalized titles to the
first article whenever that first article passes the length filter. -/
theorem C8_merge_deduplicates :
    (∀ (xs : List NewsArticle), ∀ a ∈ mergeAndDeduplicate xs,
      a.title ≠ "" ∧ a.title.length > 10)
    ∧ (∀ (xs : List NewsArticle),
      (mergeAndDeduplicate xs).Pairwise
        (fun a b => normalizeTitle a.title ≠ normalizeTitle b.title))
    ∧ (∀ (xs : List NewsArticle),
      mergeAndDeduplicate (mergeAndDeduplicate xs) = mergeAndDeduplicate xs)
    ∧ (∀ (a b : NewsArticle), normalizeTitle a.title = normalizeTitle b.title →
      a.title ≠ "" → a.title.length > 10 → mergeAndDeduplicate [a, b] = [a]) := by
  refine ⟨?_, ?_, ?_, ?_⟩
  · intro xs a ha
    have := mergeAux_mem_facts a xs [] ha
    exact ⟨this.1, this.2.1⟩
  · intro xs
    exact mergeAux_pairwise xs []
  · intro xs
    exact mergeAux_idem xs []
  · intro a b hkey hne hlen
    show mergeAux [] [a, b] = [a]
    simp only [mergeAux]
    rw [if_pos ⟨by simp, hne, hlen⟩]
    split
    · rename_i hcond
      exfalso
      exact hcond.1 (by simp [← hkey, List.elem_iff])
    · rfl

/-- Closed instance for C8's amended claim: two case/punctuation variants
of the same title collapse to the first. -/
theorem C8_merge_witness :
    mergeAndDeduplicate
      [⟨"Budget vote today!", "d", "s1", "u1", 0, "news"⟩,
       ⟨"BUDGET   vote (today)", "d", "s2", "u2", 0, "news"⟩] =
    [⟨"Budget vote today!", "d", "s1", "u1", 0, "news"⟩] :=
  C8_merge_deduplicates.2.2.2
    ⟨"Budget vote today!", "d", "s1", "u1", 0, "news"⟩
    ⟨"BUDGET   vote (today)", "d", "s2", "u2", 0, "news"⟩
    (by decide) (by decide) (by decide)

/-! ## C1 — news mode: no post when every category is empty -/

/-- Helper: when every category fetches zero fresh articles, the category
loop leaves the summaries map and the memory log untouched. -/
theorem newsCategoryLoop_empty (env : PipelineEnv) :
    ∀ (cats : List String) (summaries : List (String × String))
      (mem : List MemoryEntry),
      (∀ c ∈ cats, env.fetch c = []) →
      newsCategoryLoop env cats summaries mem = (summaries, mem) := by
  intro cats
  induction cats with
  | nil => intro summaries mem _; rfl
  | cons c rest ih =>
    intro summaries mem h
    have hc : env.fetch c = [] := h c (List.mem_cons_self _ _)
    simp only [newsCategoryLoop, hc, List.length_nil, if_pos rfl]
    exact ih summaries mem (fun d hd => h d (List.mem_cons_of_mem _ hd))

/-- Claim C1: in a news-mode run (`isNewsTweet`, or no custom topic set)
whose every active category yields zero fresh articles, `Pipeline.run`
returns `success = false` with an empty `tweetIds` list, and the posting
trace is empty — no `postTweet`, `postTweetWithImage` or `postMegaTweet`
call is ever issued. -/
theorem C1_no_post_on_empty :
    ∀ (env : PipelineEnv) (mem0 : List MemoryEntry) (userOpinion : Option String),
      env.cfg.isActive = true →
      (env.cfg.isNewsTweet = true ∨ env.cfg.customTopic = "") →
      (∀ c ∈ (if env.cfg.activeCategories.length > 0 then env.cfg.activeCategories
              else [env.envActiveCategory]), env.fetch c = []) →
      (pipelineRun env false mem0 userOpinion).result.success = false ∧
      (pipelineRun env false mem0 userOpinion).result.tweetIds = [] ∧
      (pipelineRun env false mem0 userOpinion).posts = [] := by
  intro env mem0 userOpinion hact hmode hfetch
  have hnotcustom : ¬ (¬ env.cfg.isNewsTweet ∧ env.cfg.customTopic ≠ "") := by
    rcases hmode with h | h
    · intro hc; exact hc.1 (by simp [h])
    · intro hc; exact hc.2 h
  have hloop := newsCategoryLoop_empty env
    (if env.cfg.activeCategories.length > 0 then env.cfg.activeCategories
     else [env.envActiveCategory]) [] mem0 hfetch
  simp only [pipelineRun, Bool.false_eq_true, if_false, hact, if_true,
    hnotcustom, hloop]
  simp

/-- A concrete environment for the C1 witness: news mode, active flag on,
one category, a fetch oracle returning no fresh articles. -/
def envAllEmpty : PipelineEnv where
  cfg := ⟨true, true, "", "cricket", [], ["#News", "#Breaking"], "📰", 17, false⟩
  envActiveCategory := "cricket"
  envBotEmoji := "📰"
  envCustomHashtags := ["#News", "#Breaking"]
  maxReflexionIterations := 3
  today := "Sat Oct 11 2025"
  fetch := fun _ => []
  summarizeAI := fun _ => none
  evalO := fun _ _ _ => ⟨true, 7, ""⟩
  rewriteO := fun _ _ => none
  fallbackRnd := fun _ => 0
  headlineRes := "🔥 News Digest | Today"
  opinionRes := none
  moderation := (true, "")
  customTweetRes := ""
  imageNews := none
  imageByCategory := none
  viral := fun t => ⟨t, 7, false⟩
  postTweetRes := fun _ => ⟨true, some "id1"⟩
  postImageRes := fun _ _ => ⟨true, some "id1"⟩
  postMegaRes := fun _ => ⟨true, ["id1"]⟩
  composerState := (0, "Sat Oct 11 2025")

/-- Closed instance for C1. -/
theorem C1_no_post_witness :
    (pipelineRun envAllEmpty false [] none).result.success = false ∧
    (pipelineRun envAllEmpty false [] none).result.tweetIds = [] ∧
    (pipelineRun envAllEmpty false [] none).posts = [] :=
  C1_no_post_on_empty envAllEmpty [] none rfl (Or.inl rfl)
    (fun c _ => rfl)

/-! ## C4 — key-rotating news clients -/

/-- Helper: marking from `i+1` onto a set already holding `g i` is the
same as marking from `i` one step longer. -/
theorem markIdx_shift (g : Nat → String) (E : List String) (i : Nat) :
    ∀ m, markIdx g (g i :: E) (i + 1) m = markIdx g E i (m + 1) := by
  intro m
  induction m with
  | zero => rfl
  | succ k ih =>
    simp only [markIdx, ih]
    rw [show i + 1 + k = i + (k + 1) from by omega]

theorem markIdx_mem (g : Nat → String) (E : List String) (i : Nat) :
    ∀ n k, k ∈ markIdx g E i n ↔ (∃ j, i ≤ j ∧ j < i + n ∧ g j = k) ∨ k ∈ E := by
  intro n
  induction n with
  | zero =>
    intro k
    simp only [markIdx]
    constructor
    · exact fun h => Or.inr h
    · rintro (⟨j, h1, h2, _⟩ | h)
      · omega
      · exact h
  | succ m ih =>
    intro k
    simp only [markIdx, List.mem_cons, ih]
    constructor
    · rintro (h | ⟨j, h1, h2, hg⟩ | hE)
      · exact Or.inl ⟨i + m, by omega, by omega, h.symm⟩
      · exact Or.inl ⟨j, h1, by omega, hg⟩
      · exact Or.inr hE
    · rintro (⟨j, h1, h2, hg⟩ | hE)
      · by_cases hj : j = i + m
        · subst hj; exact Or.inl hg.symm
        · exact Or.inr (Or.inl ⟨j, h1, by omega, hg⟩)
      · exact Or.inr (Or.inr hE)

/-- Helper: a rotation run over GNews credentials at indices `i..i+n-1`
that all hit the daily limit, followed by a success at index `i+n`,
returns the success, leaves the cursor on the successful credential, and
has marked exactly the failed credentials exhausted. -/
theorem gnewsRequestAux_daily_run (b : String → Nat → KeyOutcome)
    (keys : List String) :
    ∀ (n i fuel : Nat) (E : List String) (d : Nat),
      n < fuel → i + n < keys.length →
      (∀ j, i ≤ j → j ≤ i + n → keys.getD j "" ∉ E) →
      (∀ j1 j2, i ≤ j1 → j1 ≤ i + n → i ≤ j2 → j2 ≤ i + n →
        keys.getD j1 "" = keys.getD j2 "" → j1 = j2) →
      (∀ j, i ≤ j → j < i + n → gnewsTryKey b (keys.getD j "") = .exhausted) →
      gnewsTryKey b (keys.getD (i + n) "") = .success d →
      (gnewsRequestAux b keys ⟨i, E⟩ fuel).result = .ok d ∧
      (gnewsRequestAux b keys ⟨i, E⟩ fuel).state.currentKeyIndex = i + n ∧
      (gnewsRequestAux b keys ⟨i, E⟩ fuel).state.exhaustedKeys =
        markIdx (fun j => keys.getD j "") E i n := by
  intro n
  induction n with
  | zero =>
    intro i fuel E d hfuel _hlen hfresh _hinj _hdaily hsucc
    obtain ⟨f, rfl⟩ : ∃ f, fuel = f + 1 := ⟨fuel - 1, by omega⟩
    have hnotex : ¬ (E.contains (keys.getD i "") = true) := by
      intro hc
      exact hfresh i (le_refl i) (by omega) (List.elem_iff.mp hc)
    have hs : gnewsTryKey b (keys.getD i "") = .success d := hsucc
    simp only [gnewsRequestAux]
    rw [if_neg hnotex, hs]
    exact ⟨rfl, rfl, rfl⟩
  | succ m ih =>
    intro i fuel E d hfuel hlen hfresh hinj hdaily hsucc
    obtain ⟨f, rfl⟩ : ∃ f, fuel = f + 1 := ⟨fuel - 1, by omega⟩
    have hnotex : ¬ (E.contains (keys.getD i "") = true) := by
      intro hc
      exact hfresh i (le_refl i) (by omega) (List.elem_iff.mp hc)
    have hk0 : gnewsTryKey b (keys.getD i "") = .exhausted :=
      hdaily i (le_refl i) (by omega)
    have hmod : (i + 1) % keys.length = i + 1 := Nat.mod_eq_of_lt (by omega)
    have ihh := ih (i + 1) f (keys.getD i "" :: E) d (by omega) (by omega)
      (fun j hj1 hj2 => by
        intro hmem
        rcases List.mem_cons.mp hmem with he | hE
        · have := hinj j i (by omega) (by omega) (by omega) (by omega) he
          omega
        · exact hfresh j (by omega) (by omega) hE)
      (fun j1 j2 h1 h2 h3 h4 he => hinj j1 j2 (by omega) (by omega) (by omega)
        (by omega) he)
      (fun j hj1 hj2 => hdaily j (by omega) (by omega))
      (by rw [show i + 1 + m = i + (m + 1) from by omega]; exact hsucc)
    simp only [gnewsRequestAux]
    rw [if_neg hnotex, hk0, hmod]
    refine ⟨ihh.1, ?_, ?_⟩
    · rw [show i + (m + 1) = i + 1 + m from by omega]
      exact ihh.2.1
    · rw [← markIdx_shift (fun j => keys.getD j "") E i m]
      exact ihh.2.2

/-- Helper: no HTTP attempt is ever issued on a credential that was in the
exhausted set when the request started. -/
theorem gnewsRequestAux_called_fresh (b : String → Nat → KeyOutcome)
    (keys : List String) :
    ∀ (fuel : Nat) (st : GNewsState) (k : String),
      k ∈ (gnewsRequestAux b keys st fuel).called → k ∉ st.exhaustedKeys := by
  intro fuel
  induction fuel with
  | zero =>
    intro st k h
    simp [gnewsRequestAux] at h
  | succ f ih =>
    intro st k h
    simp only [gnewsRequestAux] at h
    by_cases hc : st.exhaustedKeys.contains (keys.getD st.currentKeyIndex "") = true
    · rw [if_pos hc] at h
      exact ih ⟨(st.currentKeyIndex + 1) % keys.length, st.exhaustedKeys⟩ k h
    · rw [if_neg hc] at h
      cases ht : gnewsTryKey b (keys.getD st.currentKeyIndex "") with
      | success d =>
        rw [ht] at h
        simp only [List.mem_singleton] at h
        subst h
        exact fun hmem => hc (List.elem_iff.mpr hmem)
      | thrown m =>
        rw [ht] at h
        simp only [List.mem_singleton] at h
        subst h
        exact fun hmem => hc (List.elem_iff.mpr hmem)
      | exhausted =>
        rw [ht] at h
        simp only [List.mem_cons] at h
        rcases h with rfl | h
        · exact fun hmem => hc (List.elem_iff.mpr hmem)
        · have := ih ⟨(st.currentKeyIndex + 1) % keys.length,
            keys.getD st.currentKeyIndex "" :: st.exhaustedKeys⟩ k h
          exact fun hmem => this (List.mem_cons_of_mem _ hmem)
      | giveUp =>
        rw [ht] at h
        simp only [List.mem_cons] at h
        rcases h with rfl | h
        · exact fun hmem => hc (List.elem_iff.mpr hmem)
        · exact ih ⟨(st.currentKeyIndex + 1) % keys.length, st.exhaustedKeys⟩ k h

/-- Helper: when the loop ends in `allExhausted`, the visited key indices
are one full modular sweep from the starting cursor. -/
theorem gnewsRequestAux_visited (b : String → Nat → KeyOutcome)
    (keys : List String) (hK : 0 < keys.length) :
    ∀ (fuel i : Nat) (E : List String), i < keys.length →
      (gnewsRequestAux b keys ⟨i, E⟩ fuel).result = .allExhausted →
      (gnewsRequestAux b keys ⟨i, E⟩ fuel).visited =
        (List.range fuel).map (fun j => (i + j) % keys.length) := by
  intro fuel
  induction fuel with
  | zero => intro i E _ _; rfl
  | succ f ih =>
    intro i E hi hres
    have hstep : ∀ (E' : List String),
        (gnewsRequestAux b keys ⟨(i + 1) % keys.length, E'⟩ f).result = .allExhausted →
        (gnewsRequestAux b keys ⟨(i + 1) % keys.length, E'⟩ f).visited =
          (List.range f).map (fun j => (i + Nat.succ j) % keys.length) := by
      intro E' hres'
      rw [ih ((i + 1) % keys.length) E' (Nat.mod_lt _ hK) hres']
      refine List.map_eq_map_iff.mpr ?_
      intro j _
      rw [Nat.mod_add_mod]
      congr 1
      omega
    have hhead : (i + 0) % keys.length = i := by
      simpa using Nat.mod_eq_of_lt hi
    simp only [gnewsRequestAux] at hres ⊢
    by_cases hc : E.contains (keys.getD i "") = true
    · rw [if_pos hc] at hres ⊢
      rw [List.range_succ_eq_map, List.map_cons, List.map_map, hhead]
      exact congrArg (List.cons i) (hstep E hres)
    · rw [if_neg hc] at hres ⊢
      cases ht : gnewsTryKey b (keys.getD i "") with
      | success d => rw [ht] at hres; exact absurd hres (by simp)
      | thrown m => rw [ht] at hres; exact absurd hres (by simp)
      | exhausted =>
        rw [ht] at hres
        rw [List.range_succ_eq_map, List.map_cons, List.map_map, hhead]
        exact congrArg (List.cons i) (hstep _ hres)
      | giveUp =>
        rw [ht] at hres
        rw [List.range_succ_eq_map, List.map_cons, List.map_map, hhead]
        exact congrArg (List.cons i) (hstep _ hres)

/-- Helper: a NewsData rotation run over rate-limited credentials at
indices `i..i+n-1` followed by a success at `i+n`. -/
theorem newsDataFetchAux_run (b : String → NDOutcome) (keys : List String) :
    ∀ (n i fuel d : Nat),
      n < fuel → i + n < keys.length →
      (∀ j, i ≤ j → j < i + n → b (keys.getD j "") = .rateLimit) →
      b (keys.getD (i + n) "") = .success d →
      (newsDataFetchAux b keys ⟨i⟩ fuel).result = some d ∧
      (newsDataFetchAux b keys ⟨i⟩ fuel).state = ⟨i + n⟩ := by
  intro n
  induction n with
  | zero =>
    intro i fuel d hfuel _hlen _hrl hsucc
    obtain ⟨f, rfl⟩ : ∃ f, fuel = f + 1 := ⟨fuel - 1, by omega⟩
    have hs : b (keys.getD i "") = .success d := hsucc
    simp only [newsDataFetchAux]
    rw [hs]
    exact ⟨rfl, rfl⟩
  | succ m ih =>
    intro i fuel d hfuel hlen hrl hsucc
    obtain ⟨f, rfl⟩ : ∃ f, fuel = f + 1 := ⟨fuel - 1, by omega⟩
    have h0 : b (keys.getD i "") = .rateLimit := hrl i (le_refl i) (by omega)
    have hmod : (i + 1) % keys.length = i + 1 := Nat.mod_eq_of_lt (by omega)
    have ihh := ih (i + 1) f d (by omega) (by omega)
      (fun j h1 h2 => hrl j (by omega) (by omega))
      (by rw [show i + 1 + m = i + (m + 1) from by omega]; exact hsucc)
    simp only [newsDataFetchAux, h0, hmod]
    refine ⟨ihh.1, ?_⟩
    rw [ihh.2]
    congr 1
    omega

/-- The behaviour of the first NewsData call in the counterexample run:
credential K1's daily quota is exhausted (a hard 401/403/429-class
failure), K2 succeeds. -/
def ndBehaviorDay1 : String → NDOutcome :=
  fun k => if k = "K2" then .success 1 else .rateLimit

/-- Later the same day K2's quota runs out too: every credential now
reports the quota failure. -/
def ndBehaviorDay2 : String → NDOutcome := fun _ => .rateLimit

/-- Claim C4, as stated, is false for `NewsDataService`: it keeps no
exhausted set.  Call 1 on pool `[K1, K2]` sees K1 hit a hard quota
failure and succeeds on K2 (cursor left on K2).  When a later call's
remaining credential also fails, the rotation wraps around and issues an
HTTP attempt on K1 again — the credential that had already hit a hard
quota failure in the same cycle is re-tried, and the exhaustion of the
pool is reported by returning an empty article list, not by a thrown
error. -/
theorem C4_counterexample :
    (newsDataFetch ndBehaviorDay1 ["K1", "K2"] ⟨0⟩).result = some 1 ∧
    (newsDataFetch ndBehaviorDay1 ["K1", "K2"] ⟨0⟩).called = ["K1", "K2"] ∧
    (newsDataFetch ndBehaviorDay1 ["K1", "K2"] ⟨0⟩).state = ⟨1⟩ ∧
    "K1" ∈ (newsDataFetch ndBehaviorDay2 ["K1", "K2"]
      (newsDataFetch ndBehaviorDay1 ["K1", "K2"] ⟨0⟩).state).called ∧
    (newsDataFetch ndBehaviorDay2 ["K1", "K2"]
      (newsDataFetch ndBehaviorDay1 ["K1", "K2"] ⟨0⟩).state).allExhausted = true := by
  refine ⟨by decide, by decide, by decide, by decide, by decide⟩

/-- Claim C4, amended, in five parts:
1.  `GNewsService.request` on a pool of distinct credentials whose first
    K−1 entries hit hard daily-quota failures and whose last succeeds
    returns the success, leaves the cursor on the last credential, and
    the exhausted set holds exactly the K−1 failed credentials;
2.  no HTTP attempt is ever issued on a credential already marked
    exhausted when the request started (so subsequent calls skip it);
3.  the single `All GNews API keys exhausted` outcome arises only after
    every credential index in the pool was handled (tried or skipped);
4.  `NewsDataService.fetchNews` succeeds in the same scenario, leaving
    its cursor on the successful credential — so subsequent calls start
    there and skip the failed ones by cursor position alone (it keeps no
    exhausted set, and it may re-try a quota-failed credential once the
    remaining ones also fail);
5.  a follow-up NewsData call starting at the successful credential
    issues its attempt on that credential only. -/
theorem C4_key_rotation :
    (∀ (b : String → Nat → KeyOutcome) (keys : List String) (d : Nat),
      keys.Nodup → 0 < keys.length →
      (∀ j, j < keys.length - 1 → gnewsTryKey b (keys.getD j "") = .exhausted) →
      gnewsTryKey b (keys.getD (keys.length - 1) "") = .success d →
      (gnewsRequest b keys ⟨0, []⟩).result = .ok d ∧
      (gnewsRequest b keys ⟨0, []⟩).state.currentKeyIndex = keys.length - 1 ∧
      (∀ k, k ∈ (gnewsRequest b keys ⟨0, []⟩).state.exhaustedKeys ↔
        ∃ j, j < keys.length - 1 ∧ keys.getD j "" = k))
    ∧ (∀ (b : String → Nat → KeyOutcome) (keys : List String) (st : GNewsState)
        (k : String),
      k ∈ (gnewsRequest b keys st).called → k ∉ st.exhaustedKeys)
    ∧ (∀ (b : String → Nat → KeyOutcome) (keys : List String) (st : GNewsState),
      0 < keys.length → st.currentKeyIndex < keys.length →
      (gnewsRequest b keys st).result = .allExhausted →
      ∀ idx, idx < keys.length → idx ∈ (gnewsRequest b keys st).visited)
    ∧ (∀ (b : String → NDOutcome) (keys : List String) (d : Nat),
      0 < keys.length →
      (∀ j, j < keys.length - 1 → b (keys.getD j "") = .rateLimit) →
      b (keys.getD (keys.length - 1) "") = .success d →
      (newsDataFetch b keys ⟨0⟩).result = some d ∧
      (newsDataFetch b keys ⟨0⟩).state = ⟨keys.length - 1⟩)
    ∧ (∀ (b : String → NDOutcome) (keys : List String) (d : Nat),
      0 < keys.length →
      b (keys.getD (keys.length - 1) "") = .success d →
      (newsDataFetch b keys ⟨keys.length - 1⟩).result = some d ∧
      (newsDataFetch b keys ⟨keys.length - 1⟩).called =
        [keys.getD (keys.length - 1) ""]) := by
  refine ⟨?_, ?_, ?_, ?_, ?_⟩
  · intro b keys d hnodup hK hfront hlast
    have hinj : ∀ j1 j2, 0 ≤ j1 → j1 ≤ 0 + (keys.length - 1) → 0 ≤ j2 →
        j2 ≤ 0 + (keys.length - 1) → keys.getD j1 "" = keys.getD j2 "" → j1 = j2 := by
      intro j1 j2 _ h1 _ h2 he
      have hj1 : j1 < keys.length := by omega
      have hj2 : j2 < keys.length := by omega
      rw [List.getD_eq_get keys "" hj1, List.getD_eq_get keys "" hj2] at he
      have := (List.Nodup.get_inj_iff hnodup).mp he
      simpa using congrArg Fin.val this
    have hrun := gnewsRequestAux_daily_run b keys (keys.length - 1) 0 keys.length [] d
      (by omega) (by omega) (fun j _ _ => List.not_mem_nil _) hinj
      (fun j hj1 hj2 => hfront j (by omega))
      (by simpa using hlast)
    refine ⟨hrun.1, by simpa using hrun.2.1, ?_⟩
    intro k
    rw [show (gnewsRequest b keys ⟨0, []⟩).state.exhaustedKeys =
      markIdx (fun j => keys.getD j "") [] 0 (keys.length - 1) from hrun.2.2]
    rw [markIdx_mem]
    simp only [List.not_mem_nil, or_false]
    constructor
    · rintro ⟨j, _, hj, hg⟩; exact ⟨j, by omega, hg⟩
    · rintro ⟨j, hj, hg⟩; exact ⟨j, by omega, by omega, hg⟩
  · intro b keys st k h
    exact gnewsRequestAux_called_fresh b keys keys.length st k h
  · intro b keys st hK hlt hres idx hidx
    obtain ⟨i, E⟩ := st
    have hi : i < keys.length := hlt
    have hv := gnewsRequestAux_visited b keys hK keys.length i E hi hres
    show idx ∈ (gnewsRequestAux b keys ⟨i, E⟩ keys.length).visited
    rw [hv]
    refine List.mem_map.mpr ⟨(idx + keys.length - i) % keys.length,
      List.mem_range.mpr (Nat.mod_lt _ hK), ?_⟩
    rw [Nat.add_mod_mod]
    rw [show i + (idx + keys.length - i) = idx + keys.length from by omega]
    rw [Nat.add_mod_right]
    exact Nat.mod_eq_of_lt hidx
  · intro b keys d hK hfront hlast
    have := newsDataFetchAux_run b keys (keys.length - 1) 0 keys.length d
      (by omega) (by omega) (fun j _ hj => hfront j (by omega))
      (by simpa using hlast)
    exact ⟨this.1, by simpa using this.2⟩
  · intro b keys d hK hlast
    obtain ⟨f, hf⟩ : ∃ f, keys.length = f + 1 := ⟨keys.length - 1, by omega⟩
    have hlast' : b (keys.getD f "") = .success d := by
      rw [show f = keys.length - 1 from by omega]
      exact hlast
    constructor
    · show (newsDataFetchAux b keys ⟨keys.length - 1⟩ keys.length).result = some d
      rw [hf, show f + 1 - 1 = f from by omega]
      simp only [newsDataFetchAux, hlast']
    · show (newsDataFetchAux b keys ⟨keys.length - 1⟩ keys.length).called =
        [keys.getD (keys.length - 1) ""]
      rw [hf, show f + 1 - 1 = f from by omega]
      simp only [newsDataFetchAux, hlast']

/-- The GNews behaviour for the witness: credentials A and B hit the
daily limit at every retry, credential C succeeds immediately. -/
def gnewsBehaviorW : String → Nat → KeyOutcome :=
  fun k _ => if k = "C" then .success 3 else .dailyLimit "request limit reached"

/-- Closed instance for C4's amended claim: on the pool `[A, B, C]` with
A and B quota-dead and C live, a single request succeeds with C's data. -/
theorem C4_key_rotation_witness :
    (gnewsRequest gnewsBehaviorW ["A", "B", "C"] ⟨0, []⟩).result = .ok 3 :=
  (C4_key_rotation.1 gnewsBehaviorW ["A", "B", "C"] 3 (by decide) (by decide)
    (by intro j hj; simp only [List.length_cons, List.length_nil] at hj;
        interval_cases j <;> decide) (by decide)).1

end HourlySignal
